import Mathlib

/-!
Shallow embedding of the BackChannel storage/resolution subsystem
(`src/services/db.ts`, class `DatabaseService`).

State model:
* a `Package` / `Comment` mirror the records of `types.d.ts`;
* a `StoreData` is the contents of one IndexedDB database
  (the `packages` and `comments` object stores);
* a `SysState` is the whole persistent world: the engine-support flag,
  localStorage availability, the catalog of `bc-storage-*` databases
  (dbId ↦ contents, in enumeration order), and the two localStorage
  cache keys `bc_root` / `bc_package`;
* a `StoreHandle` is one `DatabaseService` instance: its dbId and
  whether `this.db` is non-null.

The cached `bc_package` value is a serialized JSON string in the code;
we model it as `CacheVal.good pkg dbId` (parseable, carrying the dbId
that the code stores inside the JSON) or `CacheVal.corrupt`
(`JSON.parse` throws).
-/

structure Package where
  id : Option String
  name : String
  version : String
  author : String
  rootURL : Option String
deriving Repr, DecidableEq

structure Comment where
  timestamp : Int
  xpath : String
  elementText : String
  pageUrl : String
  documentTitle : String
  feedback : String
deriving Repr, DecidableEq

structure StoreData where
  packages : List Package
  comments : List Comment
deriving Repr, DecidableEq

inductive CacheVal where
  | good (pkg : Package) (dbId : String) : CacheVal
  | corrupt : CacheVal
deriving Repr, DecidableEq

structure SysState where
  supported : Bool
  hasLocalStorage : Bool
  catalog : List (String × StoreData)
  bc_root : Option String
  bc_package : Option CacheVal
deriving Repr, DecidableEq

structure StoreHandle where
  dbId : String
  isOpen : Bool
deriving Repr, DecidableEq

structure DatabaseMatch where
  dbId : String
  dbName : String
  packageData : Package
deriving Repr, DecidableEq

structure ActiveFeedbackPackage where
  dbId : String
  packageData : Package
deriving Repr, DecidableEq

/-- JS `s.startsWith(pre)`. -/
def strStartsWith (s pre : String) : Bool :=
  List.isPrefixOf pre.data s.data

/-- JS `s.includes(sub)`: substring containment. -/
def strIncludes (s sub : String) : Bool :=
  (List.range (s.data.length + 1)).any fun i =>
    List.isPrefixOf sub.data (s.data.drop i)

/-- JS `s.substring(n)` / drop of the first `n` characters. -/
def strDrop (s : String) (n : Nat) : String :=
  String.mk (s.data.drop n)

/-- Embeds `DatabaseService._normalizeUrl`: empty stays empty, otherwise one
leading `http://` or `https://` protocol token is stripped
(`url.replace(/^https?:\/\//, '')`). -/
def _normalizeUrl (url : String) : String :=
  if url = "" then ""
  else if strStartsWith url "https://" then strDrop url 8
  else if strStartsWith url "http://" then strDrop url 7
  else url

/-- JS truthiness of an optional string field (`!packageData.id` etc.):
falsy iff absent or the empty string. -/
def idFalsy : Option String → Bool
  | none => true
  | some s => s == ""

/-- Embeds `getPackage` on the contents of one database, `this.db` being open:
`getAll()` on the `packages` store; more than one record rejects with a
database-integrity error, exactly one resolves to it, none resolves to
null. -/
def getPackage (s : StoreData) : Except String (Option Package) :=
  match s.packages with
  | [] => Except.ok none
  | [p] => Except.ok (some p)
  | _ => Except.error "Database integrity error: More than one package exists in the database"

/-- The body of `searchByUrl`'s per-database loop: open the database,
`getPackage()` (an exception is caught and the database skipped), then
match iff the package exists, its `rootURL` is truthy, and
`urlPattern.includes(rootURL) || normalizedUrlPattern.includes(normalizedRootUrl)`. -/
def storeMatch (urlPattern : String) (entry : String × StoreData) : Option DatabaseMatch :=
  match getPackage entry.2 with
  | Except.error _ => none
  | Except.ok none => none
  | Except.ok (some pkg) =>
    match pkg.rootURL with
    | none => none
    | some root =>
      if root != "" &&
          (strIncludes urlPattern root ||
            strIncludes (_normalizeUrl urlPattern) (_normalizeUrl root)) then
        some ⟨entry.1, "bc-storage-" ++ entry.1, pkg⟩
      else none

/-- Embeds `DatabaseService.searchByUrl`: throws on an empty pattern or when no
persistence engine is available, otherwise scans every cataloged
`bc-storage-*` database in enumeration order and collects the matches. -/
def searchByUrl (st : SysState) (urlPattern : String) : Except String (List DatabaseMatch) :=
  if urlPattern = "" then Except.error "URL pattern is required"
  else if st.supported = false then Except.error "IndexedDB is not supported in this browser"
  else Except.ok (st.catalog.filterMap (storeMatch urlPattern))

/-- The cache-consultation condition of `getActiveFeedbackPackageForUrl`:
both localStorage keys present and truthy, and
`currentUrl.includes(cachedRootUrl) || normalizedCurrentUrl.includes(normalizedCachedRootUrl)`. -/
def cacheCondition (st : SysState) (currentUrl : String) : Bool :=
  match (if st.hasLocalStorage then st.bc_root else none),
      (if st.hasLocalStorage then st.bc_package else none) with
  | some r, some _ =>
    r != "" &&
      (strIncludes currentUrl r ||
        strIncludes (_normalizeUrl currentUrl) (_normalizeUrl r))
  | _, _ => false

/-- The cache fast path: when the condition holds, `JSON.parse` the
cached package — a parse failure is caught locally and treated as a
miss (`none`). -/
def cacheFastPath (st : SysState) (currentUrl : String) : Option ActiveFeedbackPackage :=
  if cacheCondition st currentUrl then
    match st.bc_package with
    | some (CacheVal.good pkg dbId) => some ⟨dbId, pkg⟩
    | _ => none
  else none

/-- The localStorage write performed after a successful full scan:
`bc_root := match.packageData.rootURL || ''` and `bc_package` the
serialized package augmented with its dbId. -/
def cacheWrite (st : SysState) (m : DatabaseMatch) : SysState :=
  if st.hasLocalStorage then
    { st with
      bc_root := some (m.packageData.rootURL.getD "")
      bc_package := some (CacheVal.good m.packageData m.dbId) }
  else st

/-- Embeds `DatabaseService.getActiveFeedbackPackageForUrl`: empty url → null;
no engine → null; cache fast path; on miss a full `searchByUrl` scan
(any exception caught, → null); first match cached and returned; no
match → null with the state untouched. Returns (result, new state). -/
def getActiveFeedbackPackageForUrl (st : SysState) (currentUrl : String) :
    Option ActiveFeedbackPackage × SysState :=
  if currentUrl = "" then (none, st)
  else if st.supported = false then (none, st)
  else
    match cacheFastPath st currentUrl with
    | some result => (some result, st)
    | none =>
      match searchByUrl st currentUrl with
      | Except.error _ => (none, st)
      | Except.ok [] => (none, st)
      | Except.ok (m :: _) => (some ⟨m.dbId, m.packageData⟩, cacheWrite st m)

/-- Embeds `DatabaseService.clearPackageCache`: removes both localStorage keys
when localStorage is available. -/
def clearPackageCache (st : SysState) : SysState :=
  if st.hasLocalStorage then { st with bc_root := none, bc_package := none } else st

/-- Looks up one database's contents in the catalog by dbId. -/
def getStoreData (st : SysState) (dbId : String) : Option StoreData :=
  (st.catalog.find? fun e => e.1 == dbId).map fun e => e.2

/-- Applies `f` to the contents of the database named `dbId`. -/
def updateStore (catalog : List (String × StoreData)) (dbId : String)
    (f : StoreData → StoreData) : List (String × StoreData) :=
  catalog.map fun e => if e.1 == dbId then (e.1, f e.2) else e

/-- Embeds the count query of `_checkPackagesExist` on the packages store. -/
def packagesCount (st : SysState) (dbId : String) : Nat :=
  match getStoreData st dbId with
  | some s => s.packages.length
  | none => 0

/-- IndexedDB `put` on the `packages` store (keyPath `id`): replaces the
record with the same key, otherwise inserts. -/
def putPackage (pkgs : List Package) (pkg : Package) : List Package :=
  if pkgs.any fun p => p.id == pkg.id then
    pkgs.map fun p => if p.id == pkg.id then pkg else p
  else pkgs ++ [pkg]

/-- Embeds `updatePackage`: clears the package cache first, unconditionally;
then fails (false) when `this.db` is null or `packageData.id` is falsy;
otherwise `put`s the record. -/
def updatePackage (st : SysState) (h : StoreHandle) (pkg : Package) : Bool × SysState :=
  if !h.isOpen || idFalsy pkg.id then (false, clearPackageCache st)
  else
    (true, { clearPackageCache st with
      catalog := updateStore (clearPackageCache st).catalog h.dbId
        fun s => { s with packages := putPackage s.packages pkg } })

/-- Embeds `_addPackage`: clears the package cache first; null when `this.db`
is null; null (warning, no write) when the store already holds any
package; otherwise assigns a generated id if the id is falsy and `add`s
the record, resolving to its id. -/
def _addPackage (st : SysState) (h : StoreHandle) (pkg : Package) (genId : String) :
    Option String × SysState :=
  if !h.isOpen then (none, clearPackageCache st)
  else if packagesCount (clearPackageCache st) h.dbId > 0 then (none, clearPackageCache st)
  else
    ((if idFalsy pkg.id then { pkg with id := some genId } else pkg).id,
      { clearPackageCache st with
        catalog := updateStore (clearPackageCache st).catalog h.dbId
          fun s => { s with packages :=
            s.packages ++ [if idFalsy pkg.id then { pkg with id := some genId } else pkg] } })

/-- The comments currently stored in the database named `dbId`. -/
def commentsOf (st : SysState) (dbId : String) : List Comment :=
  match getStoreData st dbId with
  | some s => s.comments
  | none => []

/-- Embeds `addComment`: null when `this.db` is null; IndexedDB `add` on the
`comments` store (keyPath `timestamp`) errors — resolving null — on a
duplicate key, otherwise inserts and resolves the timestamp. -/
def addComment (st : SysState) (h : StoreHandle) (c : Comment) : Option Int × SysState :=
  if !h.isOpen then (none, st)
  else if (commentsOf st h.dbId).any fun c2 => c2.timestamp == c.timestamp then (none, st)
  else
    (some c.timestamp, { st with
      catalog := updateStore st.catalog h.dbId
        fun s => { s with comments := s.comments ++ [c] } })

/-- Embeds `getComment`: null when `this.db` is null; otherwise `get` by the
timestamp key, null when absent. -/
def getComment (st : SysState) (h : StoreHandle) (ts : Int) : Option Comment :=
  if !h.isOpen then none
  else (commentsOf st h.dbId).find? fun c => c.timestamp == ts

/-- Embeds `deleteComment`: false when `this.db` is null; `get` by key first,
false when absent; otherwise `delete` by key and resolve true. -/
def deleteComment (st : SysState) (h : StoreHandle) (ts : Int) : Bool × SysState :=
  if !h.isOpen then (false, st)
  else
    match (commentsOf st h.dbId).find? fun c => c.timestamp == ts with
    | none => (false, st)
    | some _ =>
      (true, { st with
        catalog := updateStore st.catalog h.dbId
          fun s => { s with comments := s.comments.filter fun c => !(c.timestamp == ts) } })

/-- The result the full-scan branch of `getActiveFeedbackPackageForUrl`
produces: the first `searchByUrl` match, if any. -/
def scanResolve (st : SysState) (u : String) : Option ActiveFeedbackPackage :=
  match searchByUrl st u with
  | Except.ok (m :: _) => some ⟨m.dbId, m.packageData⟩
  | _ => none

deriving instance DecidableEq for Except

/-! ### Concrete fixtures used by witnesses and counterexamples -/

def pkgEx : Package :=
  ⟨some "pkg-1", "Example Docs", "1.0", "au", some "https://example.com/some"⟩

def pkgB : Package :=
  ⟨some "pkg-1", "Example Docs v2", "1.1", "au", some "https://example.com/some"⟩

def pkgA : Package :=
  ⟨some "pkg-2", "A Docs", "1.0", "bb", some "https://a.com"⟩

def stEx : SysState :=
  ⟨true, true, [("site1", ⟨[pkgEx], []⟩)], none, none⟩

/-! ### Helper lemmas -/

lemma clearPackageCache_fields (st : SysState) :
    (clearPackageCache st).supported = st.supported ∧
    (clearPackageCache st).hasLocalStorage = st.hasLocalStorage ∧
    (clearPackageCache st).catalog = st.catalog := by
  unfold clearPackageCache
  split <;> exact ⟨rfl, rfl, rfl⟩

lemma clearPackageCache_bc (st : SysState) (hls : st.hasLocalStorage = true) :
    (clearPackageCache st).bc_root = none ∧ (clearPackageCache st).bc_package = none := by
  unfold clearPackageCache
  rw [if_pos hls]
  exact ⟨rfl, rfl⟩

lemma cacheWrite_fields (st : SysState) (m : DatabaseMatch) :
    (cacheWrite st m).supported = st.supported ∧
    (cacheWrite st m).hasLocalStorage = st.hasLocalStorage ∧
    (cacheWrite st m).catalog = st.catalog := by
  unfold cacheWrite
  split <;> exact ⟨rfl, rfl, rfl⟩

lemma find?_updateStore (l : List (String × StoreData)) (dbId : String)
    (f : StoreData → StoreData) :
    List.find? (fun e => e.1 == dbId) (updateStore l dbId f)
      = (List.find? (fun e => e.1 == dbId) l).map fun e => (e.1, f e.2) := by
  induction l with
  | nil => rfl
  | cons a t ih =>
    have hcons : updateStore (a :: t) dbId f
        = (if (a.1 == dbId) = true then (a.1, f a.2) else a) :: updateStore t dbId f := rfl
    by_cases hd : (a.1 == dbId) = true
    · rw [hcons, if_pos hd,
        @List.find?_cons_of_pos _ (fun e => e.1 == dbId) (a.1, f a.2) (updateStore t dbId f) hd,
        @List.find?_cons_of_pos _ (fun e => e.1 == dbId) a t hd]
      rfl
    · rw [hcons, if_neg hd,
        @List.find?_cons_of_neg _ (fun e => e.1 == dbId) a (updateStore t dbId f) hd,
        @List.find?_cons_of_neg _ (fun e => e.1 == dbId) a t hd, ih]

lemma getStoreData_updateStore (st : SysState) (dbId : String) (f : StoreData → StoreData)
    (s : StoreData) (hs : getStoreData st dbId = some s) :
    getStoreData { st with catalog := updateStore st.catalog dbId f } dbId = some (f s) := by
  unfold getStoreData at hs ⊢
  rw [show ({ st with catalog := updateStore st.catalog dbId f } : SysState).catalog
      = updateStore st.catalog dbId f from rfl]
  rw [find?_updateStore]
  cases hfind : List.find? (fun e => e.1 == dbId) st.catalog with
  | none => rw [hfind] at hs; exact absurd hs (by simp)
  | some e =>
    rw [hfind] at hs
    simp only [Option.map_some'] at hs ⊢
    rw [show e.2 = s from by injection hs]

lemma commentsOf_eq (st : SysState) (dbId : String) (s : StoreData)
    (hs : getStoreData st dbId = some s) : commentsOf st dbId = s.comments := by
  unfold commentsOf
  rw [hs]

lemma cacheFastPath_no_root (st : SysState) (u : String) (h : st.bc_root = none) :
    cacheFastPath st u = none := by
  unfold cacheFastPath cacheCondition
  rw [h]
  cases hls : st.hasLocalStorage <;> simp

lemma cacheFastPath_corrupt (st : SysState) (u : String)
    (h : st.bc_package = some CacheVal.corrupt) : cacheFastPath st u = none := by
  unfold cacheFastPath
  split
  · simp [h]
  · rfl

lemma searchByUrl_ok_conditions (st : SysState) (u : String) (l : List DatabaseMatch)
    (h : searchByUrl st u = Except.ok l) : u ≠ "" ∧ st.supported = true := by
  unfold searchByUrl at h
  by_cases hu : u = ""
  · rw [if_pos hu] at h
    exact absurd h (by simp)
  · rw [if_neg hu] at h
    refine ⟨hu, ?_⟩
    by_cases hs : st.supported = false
    · rw [if_pos hs] at h
      exact absurd h (by simp)
    · cases hb : st.supported with
      | false => exact absurd hb hs
      | true => rfl

lemma getActive_hit_conditions (st : SysState) (u : String) (r : ActiveFeedbackPackage)
    (h : (getActiveFeedbackPackageForUrl st u).1 = some r) :
    u ≠ "" ∧ st.supported = true := by
  unfold getActiveFeedbackPackageForUrl at h
  by_cases hu : u = ""
  · rw [if_pos hu] at h
    exact absurd h (by simp)
  · rw [if_neg hu] at h
    refine ⟨hu, ?_⟩
    by_cases hs : st.supported = false
    · rw [if_pos hs] at h
      exact absurd h (by simp)
    · cases hb : st.supported with
      | false => exact absurd hb hs
      | true => rfl

lemma getActive_scan_hit (st : SysState) (u : String) (m : DatabaseMatch)
    (rest : List DatabaseMatch)
    (hmiss : cacheFastPath st u = none)
    (hscan : searchByUrl st u = Except.ok (m :: rest)) :
    getActiveFeedbackPackageForUrl st u = (some ⟨m.dbId, m.packageData⟩, cacheWrite st m) := by
  obtain ⟨hu, hsup⟩ := searchByUrl_ok_conditions st u _ hscan
  unfold getActiveFeedbackPackageForUrl
  rw [if_neg hu, if_neg (by simp [hsup]), hmiss, hscan]

lemma getActive_scan_miss (st : SysState) (u : String)
    (hmiss : cacheFastPath st u = none)
    (hscan : ∀ m ms, searchByUrl st u ≠ Except.ok (m :: ms)) :
    getActiveFeedbackPackageForUrl st u = (none, st) := by
  unfold getActiveFeedbackPackageForUrl
  by_cases hu : u = ""
  · rw [if_pos hu]
  · rw [if_neg hu]
    by_cases hs : st.supported = false
    · rw [if_pos hs]
    · rw [if_neg hs, hmiss]
      cases hsearch : searchByUrl st u with
      | error e => rfl
      | ok l =>
        cases l with
        | nil => rfl
        | cons m ms => exact absurd hsearch (hscan m ms)

lemma getActive_fst_scan (st : SysState) (u : String) (hu : u ≠ "")
    (hsup : st.supported = true) (hmiss : cacheFastPath st u = none) :
    (getActiveFeedbackPackageForUrl st u).1 = scanResolve st u := by
  unfold getActiveFeedbackPackageForUrl scanResolve
  rw [if_neg hu, if_neg (by simp [hsup]), hmiss]
  cases hsearch : searchByUrl st u with
  | error e => rfl
  | ok l => cases l <;> rfl

lemma packagesCount_clear (st : SysState) (dbId : String) :
    packagesCount (clearPackageCache st) dbId = packagesCount st dbId := by
  unfold packagesCount getStoreData
  rw [(clearPackageCache_fields st).2.2]

lemma updatePackage_clears (st : SysState) (h : StoreHandle) (pkg : Package)
    (hls : st.hasLocalStorage = true) :
    (updatePackage st h pkg).2.bc_root = none ∧
    (updatePackage st h pkg).2.bc_package = none := by
  unfold updatePackage
  split
  · exact clearPackageCache_bc st hls
  · exact clearPackageCache_bc st hls

lemma updatePackage_preserves (st : SysState) (h : StoreHandle) (pkg : Package) :
    (updatePackage st h pkg).2.supported = st.supported ∧
    (updatePackage st h pkg).2.hasLocalStorage = st.hasLocalStorage := by
  unfold updatePackage
  split
  · exact ⟨(clearPackageCache_fields st).1, (clearPackageCache_fields st).2.1⟩
  · exact ⟨(clearPackageCache_fields st).1, (clearPackageCache_fields st).2.1⟩

lemma getActive_snd_cases (st : SysState) (u : String) :
    (getActiveFeedbackPackageForUrl st u).2 = st ∨
      ∃ m, (getActiveFeedbackPackageForUrl st u).2 = cacheWrite st m := by
  unfold getActiveFeedbackPackageForUrl
  split
  · exact Or.inl rfl
  split
  · exact Or.inl rfl
  split
  · exact Or.inl rfl
  split
  · exact Or.inl rfl
  · exact Or.inl rfl
  · exact Or.inr ⟨_, rfl⟩

lemma getActive_snd_preserves (st : SysState) (u : String) :
    (getActiveFeedbackPackageForUrl st u).2.supported = st.supported ∧
    (getActiveFeedbackPackageForUrl st u).2.hasLocalStorage = st.hasLocalStorage := by
  rcases getActive_snd_cases st u with h | ⟨m, h⟩
  · rw [h]
    exact ⟨rfl, rfl⟩
  · rw [h]
    exact ⟨(cacheWrite_fields st m).1, (cacheWrite_fields st m).2.1⟩

/-! ### Claim theorems -/

/-- C1 (code_bug evidence): the resolution match condition is substring
containment, not strict prefix matching. At url
`https://notexample.com/some/page` and cataloged root
`https://example.com/some`, the url starts with the root neither raw
nor normalized, yet `searchByUrl` includes the store (the normalized
root occurs as an inner substring of the normalized url), and the cache
fast path likewise returns a hit for a cached root that is not a
prefix of the queried url. -/
theorem c1_match_uses_substring_containment :
    searchByUrl stEx "https://notexample.com/some/page"
        = Except.ok [⟨"site1", "bc-storage-site1", pkgEx⟩] ∧
    strStartsWith "https://notexample.com/some/page" "https://example.com/some" = false ∧
    strStartsWith (_normalizeUrl "https://notexample.com/some/page")
        (_normalizeUrl "https://example.com/some") = false ∧
    (getActiveFeedbackPackageForUrl
        ⟨true, true, [], some "https://example.com/some", some (CacheVal.good pkgEx "site1")⟩
        "https://notexample.com/some/page").1 = some ⟨"site1", pkgEx⟩ :=
  ⟨by decide, by decide, by decide, by decide⟩

/-- C2: `_addPackage` on a Store that already contains a Package returns
the failure sentinel (null) and leaves the catalog — hence the Package
record already in the Store — unchanged. -/
theorem c2_addPackage_nonempty_is_noop (st : SysState) (h : StoreHandle) (pkg : Package)
    (genId : String) (hne : packagesCount st h.dbId > 0) :
    (_addPackage st h pkg genId).1 = none ∧
    (_addPackage st h pkg genId).2.catalog = st.catalog := by
  unfold _addPackage
  have hcat := (clearPackageCache_fields st).2.2
  have hne' : packagesCount (clearPackageCache st) h.dbId > 0 := by
    rw [packagesCount_clear]
    exact hne
  by_cases ho : (!h.isOpen) = true
  · rw [if_pos ho]
    exact ⟨rfl, hcat⟩
  · rw [if_neg ho, if_pos hne']
    exact ⟨rfl, hcat⟩

/-- C2 witness: a concrete store already holding a package. -/
theorem c2_addPackage_nonempty_is_noop_witness :
    packagesCount stEx "site1" > 0 ∧
    (_addPackage stEx ⟨"site1", true⟩ pkgB "pkg-777").1 = none ∧
    (_addPackage stEx ⟨"site1", true⟩ pkgB "pkg-777").2.catalog = stEx.catalog :=
  ⟨by decide,
    (c2_addPackage_nonempty_is_noop stEx ⟨"site1", true⟩ pkgB "pkg-777" (by decide)).1,
    (c2_addPackage_nonempty_is_noop stEx ⟨"site1", true⟩ pkgB "pkg-777" (by decide)).2⟩

/-- C4: `getPackage` distinguishes three outcomes: the unique record if
exactly one exists, null (ok none) on an empty collection, and an
explicit integrity-violation error — never ok — when more than one
record exists. -/
theorem c4_getPackage_trichotomy (s : StoreData) :
    (s.packages = [] → getPackage s = Except.ok none) ∧
    (∀ p, s.packages = [p] → getPackage s = Except.ok (some p)) ∧
    (1 < s.packages.length →
      getPackage s
        = Except.error "Database integrity error: More than one package exists in the database") := by
  refine ⟨?_, ?_, ?_⟩
  · intro h
    unfold getPackage
    rw [h]
  · intro p h
    unfold getPackage
    rw [h]
  · intro h
    unfold getPackage
    cases hp : s.packages with
    | nil => rw [hp] at h; simp at h
    | cons a t =>
      cases t with
      | nil => rw [hp] at h; simp at h
      | cons b t2 => rfl

/-- C4 witness: the three outcomes on concrete stores. -/
theorem c4_getPackage_trichotomy_witness :
    getPackage ⟨[], []⟩ = Except.ok none ∧
    getPackage ⟨[pkgEx], []⟩ = Except.ok (some pkgEx) ∧
    getPackage ⟨[pkgEx, pkgA], []⟩
      = Except.error "Database integrity error: More than one package exists in the database" :=
  ⟨(c4_getPackage_trichotomy ⟨[], []⟩).1 rfl,
    (c4_getPackage_trichotomy ⟨[pkgEx], []⟩).2.1 pkgEx rfl,
    (c4_getPackage_trichotomy ⟨[pkgEx, pkgA], []⟩).2.2 (by decide)⟩

/-- C9: `getActiveFeedbackPackageForUrl` always resolves to a value and
the failure cases yield null with the state untouched: an empty url, an
unsupported persistence engine, and an internal error thrown by the
multi-store scan (caught by the surrounding handler) all produce
`(none, st)` rather than a propagated exception. -/
theorem c9_resolution_never_throws (st : SysState) (u : String) :
    (u = "" → getActiveFeedbackPackageForUrl st u = (none, st)) ∧
    (st.supported = false → getActiveFeedbackPackageForUrl st u = (none, st)) ∧
    (∀ e, searchByUrl st u = Except.error e → cacheFastPath st u = none →
      getActiveFeedbackPackageForUrl st u = (none, st)) := by
  refine ⟨?_, ?_, ?_⟩
  · intro hu
    unfold getActiveFeedbackPackageForUrl
    rw [if_pos hu]
  · intro hs
    unfold getActiveFeedbackPackageForUrl
    by_cases hu : u = ""
    · rw [if_pos hu]
    · rw [if_neg hu, if_pos hs]
  · intro e herr hmiss
    refine getActive_scan_miss st u hmiss ?_
    intro m ms hcontra
    rw [herr] at hcontra
    exact Except.noConfusion hcontra

/-- C9 witness: the empty url on a concrete state. -/
theorem c9_resolution_never_throws_witness :
    getActiveFeedbackPackageForUrl stEx "" = (none, stEx) :=
  (c9_resolution_never_throws stEx "").1 rfl

/-- C10: every call to `updatePackage` clears the single-slot cache —
the clear happens before any validation, so it also happens when the
update fails and returns false (handle not open or falsy package id). -/
theorem c10_updatePackage_always_clears_cache (st : SysState) (h : StoreHandle)
    (pkg : Package) (hls : st.hasLocalStorage = true) :
    (updatePackage st h pkg).2.bc_root = none ∧
    (updatePackage st h pkg).2.bc_package = none ∧
    ((!h.isOpen || idFalsy pkg.id) = true → (updatePackage st h pkg).1 = false) := by
  refine ⟨(updatePackage_clears st h pkg hls).1, (updatePackage_clears st h pkg hls).2, ?_⟩
  intro hfail
  unfold updatePackage
  rw [if_pos hfail]

/-- C10 witness: a failed update (closed handle) on a state with a
populated cache still clears both cache keys. -/
theorem c10_updatePackage_always_clears_cache_witness :
    (updatePackage ⟨true, true, [], some "https://a.com", some (CacheVal.good pkgA "s1")⟩
        ⟨"s1", false⟩ pkgEx).1 = false ∧
    (updatePackage ⟨true, true, [], some "https://a.com", some (CacheVal.good pkgA "s1")⟩
        ⟨"s1", false⟩ pkgEx).2.bc_root = none ∧
    (updatePackage ⟨true, true, [], some "https://a.com", some (CacheVal.good pkgA "s1")⟩
        ⟨"s1", false⟩ pkgEx).2.bc_package = none :=
  ⟨(c10_updatePackage_always_clears_cache
      ⟨true, true, [], some "https://a.com", some (CacheVal.good pkgA "s1")⟩
      ⟨"s1", false⟩ pkgEx rfl).2.2 (by decide),
    (c10_updatePackage_always_clears_cache
      ⟨true, true, [], some "https://a.com", some (CacheVal.good pkgA "s1")⟩
      ⟨"s1", false⟩ pkgEx rfl).1,
    (c10_updatePackage_always_clears_cache
      ⟨true, true, [], some "https://a.com", some (CacheVal.good pkgA "s1")⟩
      ⟨"s1", false⟩ pkgEx rfl).2.1⟩

/-- C5: on a cache miss, when `searchByUrl` returns a non-empty match
list, `getActiveFeedbackPackageForUrl` returns the first match and
writes exactly that match's root URL, package data and store id into
the single cache slot. -/
theorem c5_first_match_wins_and_is_cached (st : SysState) (u : String) (m : DatabaseMatch)
    (rest : List DatabaseMatch)
    (hls : st.hasLocalStorage = true)
    (hmiss : cacheFastPath st u = none)
    (hscan : searchByUrl st u = Except.ok (m :: rest)) :
    getActiveFeedbackPackageForUrl st u =
      (some ⟨m.dbId, m.packageData⟩,
        { st with
          bc_root := some (m.packageData.rootURL.getD "")
          bc_package := some (CacheVal.good m.packageData m.dbId) }) := by
  rw [getActive_scan_hit st u m rest hmiss hscan]
  unfold cacheWrite
  rw [if_pos hls]

/-- C5 witness: a concrete cache miss with one matching store. -/
theorem c5_first_match_wins_and_is_cached_witness :
    cacheFastPath stEx "https://example.com/some/page" = none ∧
    searchByUrl stEx "https://example.com/some/page"
      = Except.ok [⟨"site1", "bc-storage-site1", pkgEx⟩] ∧
    getActiveFeedbackPackageForUrl stEx "https://example.com/some/page" =
      (some ⟨"site1", pkgEx⟩,
        { stEx with
          bc_root := some "https://example.com/some"
          bc_package := some (CacheVal.good pkgEx "site1") }) :=
  ⟨by decide, by decide,
    c5_first_match_wins_and_is_cached stEx "https://example.com/some/page"
      ⟨"site1", "bc-storage-site1", pkgEx⟩ [] rfl (by decide) (by decide)⟩

/-- C6 counterexample: the claim as stated fails on a stale cache. With
no Stores at all but a cached entry whose root is a prefix of the url,
`getActiveFeedbackPackageForUrl` returns the cached package, not null:
the claim holds only on a cache fast-path miss. -/
theorem c6_counterexample_stale_cache_hit :
    searchByUrl ⟨true, true, [], some "https://a.com", some (CacheVal.good pkgA "s1")⟩
        "https://a.com/x" = Except.ok [] ∧
    (getActiveFeedbackPackageForUrl
        ⟨true, true, [], some "https://a.com", some (CacheVal.good pkgA "s1")⟩
        "https://a.com/x").1 = some ⟨"s1", pkgA⟩ :=
  ⟨by decide, by decide⟩

/-- C6 (amended): on a cache fast-path miss, for every url with no
matching Store (the scan yields no matches or throws — in particular
when no Stores exist), `getActiveFeedbackPackageForUrl` returns null
without error and the whole state, the cache slot included, is left
exactly as it was. -/
theorem c6_no_match_returns_null_state_untouched (st : SysState) (u : String)
    (hmiss : cacheFastPath st u = none)
    (hscan : ∀ m ms, searchByUrl st u ≠ Except.ok (m :: ms)) :
    getActiveFeedbackPackageForUrl st u = (none, st) :=
  getActive_scan_miss st u hmiss hscan

/-- C6 witness: no Stores exist and the cache is empty. -/
theorem c6_no_match_returns_null_state_untouched_witness :
    getActiveFeedbackPackageForUrl ⟨true, true, [], none, none⟩ "https://x.com/page"
      = (none, ⟨true, true, [], none, none⟩) :=
  c6_no_match_returns_null_state_untouched ⟨true, true, [], none, none⟩ "https://x.com/page"
    (by decide)
    (by
      intro m ms hcontra
      rw [show searchByUrl ⟨true, true, [], none, none⟩ "https://x.com/page" = Except.ok []
        from by decide] at hcontra
      exact List.noConfusion (Except.ok.inj hcontra))

/-- C7: a present but unparseable cache entry is treated as a cache
miss: resolution falls through to the full multi-store scan, and on a
successful resolution the corrupt entry is overwritten by the fresh
match in the cache slot. -/
theorem c7_corrupt_cache_entry_falls_through (st : SysState) (u : String) (m : DatabaseMatch)
    (rest : List DatabaseMatch)
    (hls : st.hasLocalStorage = true)
    (hcor : st.bc_package = some CacheVal.corrupt)
    (hscan : searchByUrl st u = Except.ok (m :: rest)) :
    getActiveFeedbackPackageForUrl st u = (some ⟨m.dbId, m.packageData⟩, cacheWrite st m) ∧
    (cacheWrite st m).bc_package = some (CacheVal.good m.packageData m.dbId) := by
  refine ⟨getActive_scan_hit st u m rest (cacheFastPath_corrupt st u hcor) hscan, ?_⟩
  unfold cacheWrite
  rw [if_pos hls]

/-- C7 witness: a corrupt cached entry whose root even matches the url,
with one matching store behind it. -/
theorem c7_corrupt_cache_entry_falls_through_witness :
    searchByUrl ⟨true, true, [("site1", ⟨[pkgEx], []⟩)], some "https://example.com/some",
        some CacheVal.corrupt⟩ "https://example.com/some/page"
      = Except.ok [⟨"site1", "bc-storage-site1", pkgEx⟩] ∧
    (getActiveFeedbackPackageForUrl
        ⟨true, true, [("site1", ⟨[pkgEx], []⟩)], some "https://example.com/some",
          some CacheVal.corrupt⟩ "https://example.com/some/page"
      = (some ⟨"site1", pkgEx⟩,
          cacheWrite ⟨true, true, [("site1", ⟨[pkgEx], []⟩)], some "https://example.com/some",
            some CacheVal.corrupt⟩ ⟨"site1", "bc-storage-site1", pkgEx⟩) ∧
      (cacheWrite ⟨true, true, [("site1", ⟨[pkgEx], []⟩)], some "https://example.com/some",
          some CacheVal.corrupt⟩ ⟨"site1", "bc-storage-site1", pkgEx⟩).bc_package
        = some (CacheVal.good pkgEx "site1")) :=
  ⟨by decide,
    c7_corrupt_cache_entry_falls_through
      ⟨true, true, [("site1", ⟨[pkgEx], []⟩)], some "https://example.com/some",
        some CacheVal.corrupt⟩ "https://example.com/some/page"
      ⟨"site1", "bc-storage-site1", pkgEx⟩ [] rfl rfl (by decide)⟩

/-- C3: after `getActiveFeedbackPackageForUrl u` returned a hit,
`updatePackage` on any store handle clears the single-slot cache (both
keys become empty), so re-resolving `u` cannot serve the stale
pre-update cached value: the second resolution's result is the result
of the full multi-store scan over the post-update catalog. -/
theorem c3_update_after_hit_invalidates_cache (st : SysState) (u : String) (h : StoreHandle)
    (pkg : Package) (r : ActiveFeedbackPackage)
    (hls : st.hasLocalStorage = true)
    (hhit : (getActiveFeedbackPackageForUrl st u).1 = some r) :
    (updatePackage (getActiveFeedbackPackageForUrl st u).2 h pkg).2.bc_root = none ∧
    (updatePackage (getActiveFeedbackPackageForUrl st u).2 h pkg).2.bc_package = none ∧
    (getActiveFeedbackPackageForUrl
        (updatePackage (getActiveFeedbackPackageForUrl st u).2 h pkg).2 u).1
      = scanResolve (updatePackage (getActiveFeedbackPackageForUrl st u).2 h pkg).2 u := by
  obtain ⟨hu, hsup⟩ := getActive_hit_conditions st u r hhit
  have hls1 : (getActiveFeedbackPackageForUrl st u).2.hasLocalStorage = true := by
    rw [(getActive_snd_preserves st u).2]
    exact hls
  have hclear := updatePackage_clears (getActiveFeedbackPackageForUrl st u).2 h pkg hls1
  refine ⟨hclear.1, hclear.2, ?_⟩
  have hsup2 : (updatePackage (getActiveFeedbackPackageForUrl st u).2 h pkg).2.supported = true := by
    rw [(updatePackage_preserves (getActiveFeedbackPackageForUrl st u).2 h pkg).1,
      (getActive_snd_preserves st u).1]
    exact hsup
  exact getActive_fst_scan _ u hu hsup2 (cacheFastPath_no_root _ u hclear.1)

/-- C3 witness: a hit on a concrete store followed by an update. -/
theorem c3_update_after_hit_invalidates_cache_witness :
    (getActiveFeedbackPackageForUrl stEx "https://example.com/some/page").1
      = some ⟨"site1", pkgEx⟩ ∧
    ((updatePackage (getActiveFeedbackPackageForUrl stEx "https://example.com/some/page").2
        ⟨"site1", true⟩ pkgB).2.bc_root = none ∧
      (updatePackage (getActiveFeedbackPackageForUrl stEx "https://example.com/some/page").2
        ⟨"site1", true⟩ pkgB).2.bc_package = none ∧
      (getActiveFeedbackPackageForUrl
          (updatePackage (getActiveFeedbackPackageForUrl stEx "https://example.com/some/page").2
            ⟨"site1", true⟩ pkgB).2 "https://example.com/some/page").1
        = scanResolve
            (updatePackage (getActiveFeedbackPackageForUrl stEx "https://example.com/some/page").2
              ⟨"site1", true⟩ pkgB).2 "https://example.com/some/page") :=
  ⟨by decide,
    c3_update_after_hit_invalidates_cache stEx "https://example.com/some/page"
      ⟨"site1", true⟩ pkgB ⟨"site1", pkgEx⟩ rfl (by decide)⟩

/-- C8: on an open store, adding a comment whose timestamp is not yet
present succeeds and `getComment` then returns a record equal to it;
after a successful `deleteComment` of that timestamp, `getComment`
returns null. -/
theorem c8_comment_round_trip (st : SysState) (h : StoreHandle) (c : Comment) (s : StoreData)
    (ho : h.isOpen = true)
    (hs : getStoreData st h.dbId = some s)
    (hfresh : ∀ c2 ∈ s.comments, c2.timestamp ≠ c.timestamp) :
    (addComment st h c).1 = some c.timestamp ∧
    getComment (addComment st h c).2 h c.timestamp = some c ∧
    (deleteComment (addComment st h c).2 h c.timestamp).1 = true ∧
    getComment (deleteComment (addComment st h c).2 h c.timestamp).2 h c.timestamp = none := by
  have hcomAll : commentsOf st h.dbId = s.comments := commentsOf_eq st h.dbId s hs
  have hdup : ((commentsOf st h.dbId).any fun c2 => c2.timestamp == c.timestamp) = false := by
    rw [hcomAll, List.any_eq_false]
    intro x hx
    simp only [beq_iff_eq]
    exact hfresh x hx
  have hadd : addComment st h c
      = (some c.timestamp, { st with catalog := (updateStore st.catalog h.dbId
          fun sd => { sd with comments := sd.comments ++ [c] }) }) := by
    unfold addComment
    rw [if_neg (by simp [ho]), if_neg (by simp [hdup])]
  have hs1 : getStoreData (addComment st h c).2 h.dbId
      = some { s with comments := s.comments ++ [c] } := by
    rw [hadd]
    exact getStoreData_updateStore st h.dbId _ s hs
  have hcom1 : commentsOf (addComment st h c).2 h.dbId = s.comments ++ [c] := by
    rw [commentsOf_eq _ h.dbId _ hs1]
  have hnone : List.find? (fun c2 => c2.timestamp == c.timestamp) s.comments = none := by
    rw [List.find?_eq_none]
    intro x hx
    simp only [beq_iff_eq]
    exact hfresh x hx
  have hfind : List.find? (fun c2 => c2.timestamp == c.timestamp) (s.comments ++ [c])
      = some c := by
    rw [List.find?_append, hnone]
    simp [List.find?]
  have hdel : deleteComment (addComment st h c).2 h c.timestamp
      = (true, { (addComment st h c).2 with
          catalog := (updateStore (addComment st h c).2.catalog h.dbId
            fun sd => { sd with
              comments := sd.comments.filter fun c2 => !(c2.timestamp == c.timestamp) }) }) := by
    unfold deleteComment
    rw [if_neg (by simp [ho]), hcom1, hfind]
  have hcom2 : commentsOf (deleteComment (addComment st h c).2 h c.timestamp).2 h.dbId
      = (s.comments ++ [c]).filter fun c2 => !(c2.timestamp == c.timestamp) := by
    rw [hdel]
    exact commentsOf_eq _ h.dbId _ (getStoreData_updateStore _ h.dbId _ _ hs1)
  refine ⟨by rw [hadd], ?_, ?_, ?_⟩
  · unfold getComment
    rw [if_neg (by simp [ho]), hcom1, hfind]
  · rw [hdel]
  · unfold getComment
    rw [if_neg (by simp [ho]), hcom2, List.find?_eq_none]
    intro x hx
    rw [List.mem_filter] at hx
    simpa using hx.2

/-- C8 witness: a concrete comment round trip on the example store. -/
theorem c8_comment_round_trip_witness :
    (addComment stEx ⟨"site1", true⟩
        ⟨1700000000000, "/html/body", "text", "https://example.com/some/p", "T", "fb"⟩).1
      = some 1700000000000 ∧
    getComment (addComment stEx ⟨"site1", true⟩
        ⟨1700000000000, "/html/body", "text", "https://example.com/some/p", "T", "fb"⟩).2
      ⟨"site1", true⟩ 1700000000000
      = some ⟨1700000000000, "/html/body", "text", "https://example.com/some/p", "T", "fb"⟩ ∧
    (deleteComment (addComment stEx ⟨"site1", true⟩
        ⟨1700000000000, "/html/body", "text", "https://example.com/some/p", "T", "fb"⟩).2
      ⟨"site1", true⟩ 1700000000000).1 = true ∧
    getComment (deleteComment (addComment stEx ⟨"site1", true⟩
        ⟨1700000000000, "/html/body", "text", "https://example.com/some/p", "T", "fb"⟩).2
      ⟨"site1", true⟩ 1700000000000).2 ⟨"site1", true⟩ 1700000000000 = none :=
  c8_comment_round_trip stEx ⟨"site1", true⟩
    ⟨1700000000000, "/html/body", "text", "https://example.com/some/p", "T", "fb"⟩
    ⟨[pkgEx], []⟩ rfl (by decide) (by simp)
